import Mathlib

/-!
Graphics-OpenGL: the triangle program `OpenGL/main.cpp`.

A shallow embedding of `main` as a function of the results the windowing and
graphics libraries hand back to it.  Every library call the program makes is
appended, with the arguments the program passes, to a call trace; everything
written to `std::cout` / `std::cerr` is appended to the two output streams.
-/

namespace OpenGL

/-! ## Constants of the source and of the library headers -/

/-- The window width, `const GLint WIDTH = 600`. -/
def WIDTH : Int := 600

/-- The window height, `const GLint HEIGHT = 600`. -/
def HEIGHT : Int := 600

/-- The vertex shader text, the raw string literal `vertex_shader_source`. -/
def vertex_shader_source : String :=
  "\n\t#version 330 core\n\tlayout (location = 0) in vec3 aPos;\n\tvoid main() \x7b\n\t\tgl_Position = vec4(aPos.x, aPos.y, aPos.z, 1.0);\n\t\x7d\n"

/-- The fragment shader text, the raw string literal `fragment_shader_source`. -/
def fragment_shader_source : String :=
  "\n\t#version 330 core\n\tout vec4 FragColor;\n\tvoid main() \x7b\n\t\tFragColor = vec4(1.0f, 0.5f, 0.2f, 1.0f); // Orange color\n\t\x7d\n"

/-- The symbolic OpenGL enumerants the program passes. -/
inductive GLenum where
  | GL_VERTEX_SHADER
  | GL_FRAGMENT_SHADER
  | GL_COMPILE_STATUS
  | GL_LINK_STATUS
  | GL_ARRAY_BUFFER
  | GL_STATIC_DRAW
  | GL_FLOAT
  | GL_TRIANGLES
  | GL_COLOR_BUFFER_BIT
  deriving DecidableEq, Repr

/-- The symbolic GLFW window hints the program sets. -/
inductive GLFWhint where
  | GLFW_CONTEXT_VERSION_MAJOR
  | GLFW_CONTEXT_VERSION_MINOR
  | GLFW_OPENGL_PROFILE
  | GLFW_OPENGL_FORWARD_COMPAT
  deriving DecidableEq, Repr

/-- The value of a window hint: a plain integer, or a named header constant. -/
inductive HintValue where
  | int (n : Int)
  | GLFW_OPENGL_CORE_PROFILE
  | GL_TRUE
  deriving DecidableEq, Repr

/-- The return value `GLEW_OK` of a successful `glewInit` (0 in `glew.h`). -/
def GLEW_OK : Nat := 0

/-- The size in bytes of a `GLfloat`, a 32-bit float. -/
def sizeof_GLfloat : Nat := 4

/-- The array `GLfloat vertices[]` of `main`; each literal is a dyadic
rational, held exactly by a 32-bit float. -/
def vertices : List ℚ :=
  [-0.5, -0.5, 0.0,
    0.5, -0.5, 0.0,
    0.0,  0.5, 0.0]

/-- The byte size `sizeof(vertices)`. -/
def sizeof_vertices : Nat := vertices.length * sizeof_GLfloat

/-! ## The library calls and the observable world -/

/-- One call into GLFW, GLEW or OpenGL, with the arguments `main` passes.
Object names (`GLuint`) and the window pointer are natural numbers, 0 being
the null pointer / the reserved name.  Arguments that `main` always passes
as `NULL` (monitor, share, length arrays) and the addresses of output
variables are left out; a pointer to a name or to data is given by the value
it points to. -/
inductive Call where
  | glfwInit
  | glfwTerminate
  | glfwWindowHint (hint : GLFWhint) (value : HintValue)
  | glfwCreateWindow (width height : Int) (title : String)
  | glfwGetFramebufferSize (window : Nat)
  | glfwMakeContextCurrent (window : Nat)
  | glewInit
  | glfwDestroyWindow (window : Nat)
  | glViewport (x y width height : Int)
  | glCreateShader (type : GLenum)
  | glShaderSource (shader count : Nat) (source : String)
  | glCompileShader (shader : Nat)
  | glGetShaderiv (shader : Nat) (pname : GLenum)
  | glGetShaderInfoLog (shader bufSize : Nat)
  | glCreateProgram
  | glAttachShader (program shader : Nat)
  | glLinkProgram (program : Nat)
  | glGetProgramiv (program : Nat) (pname : GLenum)
  | glGetProgramInfoLog (program bufSize : Nat)
  | glDeleteShader (shader : Nat)
  | glGenVertexArrays (n : Nat)
  | glGenBuffers (n : Nat)
  | glBindVertexArray (array : Nat)
  | glBindBuffer (target : GLenum) (buffer : Nat)
  | glBufferData (target : GLenum) (size : Nat) (data : List ℚ) (usage : GLenum)
  | glVertexAttribPointer (index size : Nat) (type : GLenum) (normalized : Bool)
      (stride pointer : Nat)
  | glEnableVertexAttribArray (index : Nat)
  | glfwWindowShouldClose (window : Nat)
  | glfwPollEvents
  | glClearColor (red green blue alpha : ℚ)
  | glClear (mask : GLenum)
  | glUseProgram (program : Nat)
  | glDrawArrays (mode : GLenum) (first count : Int)
  | glfwSwapBuffers (window : Nat)
  | glDeleteVertexArrays (n array : Nat)
  | glDeleteBuffers (n buffer : Nat)
  | glDeleteProgram (program : Nat)

/-- What the libraries hand back to `main` during one run. -/
structure Env where
  /-- The result of `glfwInit()`; 0 is failure. -/
  glfwInit : Int
  /-- The pointer returned by `glfwCreateWindow`; 0 is `NULL`. -/
  mainWindow : Nat
  /-- The width stored by `glfwGetFramebufferSize`. -/
  bufferWidth : Int
  /-- The height stored by `glfwGetFramebufferSize`. -/
  bufferHeight : Int
  /-- The result of `glewInit()`. -/
  glewInit : Nat
  /-- The name returned by `glCreateShader(GL_VERTEX_SHADER)`. -/
  vertex_shader : Nat
  /-- The `GL_COMPILE_STATUS` of the vertex shader. -/
  vertexCompileStatus : Int
  /-- The info log the driver holds for the vertex shader. -/
  vertexInfoLog : String
  /-- The name returned by `glCreateShader(GL_FRAGMENT_SHADER)`. -/
  fragment_shader : Nat
  /-- The `GL_COMPILE_STATUS` of the fragment shader. -/
  fragmentCompileStatus : Int
  /-- The info log the driver holds for the fragment shader. -/
  fragmentInfoLog : String
  /-- The name returned by `glCreateProgram()`. -/
  shader_program : Nat
  /-- The `GL_LINK_STATUS` of the program. -/
  linkStatus : Int
  /-- The info log the driver holds for the program. -/
  programInfoLog : String
  /-- The name stored by `glGenVertexArrays`. -/
  VAO : Nat
  /-- The name stored by `glGenBuffers`. -/
  VBO : Nat
  /-- The successive results of `glfwWindowShouldClose(mainWindow)`. -/
  shouldClose : List Int

/-- The observable effects of a run so far. -/
structure World where
  /-- The library calls made, oldest first. -/
  calls : List Call := []
  /-- The text written to `std::cout`, oldest first. -/
  cout : List String := []
  /-- The text written to `std::cerr`, oldest first. -/
  cerr : List String := []
  /-- The global `glewExperimental`. -/
  glewExperimental : Bool := false

/-- Record one library call. -/
def World.call (w : World) (c : Call) : World :=
  { w with calls := w.calls ++ [c] }

/-- Evaluate `std::cout << ... << std::endl` on the concatenated text. -/
def World.toCout (w : World) (s : String) : World :=
  { w with cout := w.cout ++ [s ++ "\n"] }

/-- Evaluate `std::cerr << ... << std::endl` on the concatenated text. -/
def World.toCerr (w : World) (s : String) : World :=
  { w with cerr := w.cerr ++ [s ++ "\n"] }

/-- The text an info-log query writes into a buffer of `bufSize` bytes: at
most `bufSize - 1` characters of the log, then the terminator. -/
def infoLogText (bufSize : Nat) (log : String) : String :=
  String.mk (log.data.take (bufSize - 1))

/-! ## The program -/

/-- The loop `while (!glfwWindowShouldClose(mainWindow)) { ... }`, driven by
the successive readings of the close flag.  The second component tells
whether the loop was left; it is `false` when the readings run out while
the loop is still running. -/
def renderLoop (env : Env) : List Int → World → World × Bool
  | [], w => (w, false)
  | flag :: rest, w =>
    let w := w.call (.glfwWindowShouldClose env.mainWindow)
    if flag ≠ 0 then (w, true)
    else
      let w := w.call .glfwPollEvents
      let w := w.call (.glClearColor 1.0 0.0 0.0 1.0)
      let w := w.call (.glClear .GL_COLOR_BUFFER_BIT)
      let w := w.call (.glUseProgram env.shader_program)
      let w := w.call (.glBindVertexArray env.VAO)
      let w := w.call (.glDrawArrays .GL_TRIANGLES 0 3)
      let w := w.call (.glfwSwapBuffers env.mainWindow)
      renderLoop env rest w

/-- The function `main`: the final world and the value returned, `none` when
the close-flag readings run out before the loop is left. -/
def main (env : Env) : World × Option Int :=
  let w : World := {}
  let w : World := w.call .glfwInit
  if env.glfwInit = 0 then
    let w : World := w.toCout "GLFW Initialization Failed!"
    let w : World := w.call .glfwTerminate
    (w, some 1)
  else
  let w : World := w.call (.glfwWindowHint .GLFW_CONTEXT_VERSION_MAJOR (.int 3))
  let w : World := w.call (.glfwWindowHint .GLFW_CONTEXT_VERSION_MINOR (.int 3))
  let w : World := w.call (.glfwWindowHint .GLFW_OPENGL_PROFILE .GLFW_OPENGL_CORE_PROFILE)
  let w : World := w.call (.glfwWindowHint .GLFW_OPENGL_FORWARD_COMPAT .GL_TRUE)
  let w : World := w.call (.glfwCreateWindow WIDTH HEIGHT "Main Window")
  if env.mainWindow = 0 then
    let w : World := w.toCerr "Window Creation Failed!"
    let w : World := w.call .glfwTerminate
    (w, some (-1))
  else
  let w : World := w.call (.glfwGetFramebufferSize env.mainWindow)
  let w : World := w.call (.glfwMakeContextCurrent env.mainWindow)
  let w : World := { w with glewExperimental := true }
  let w : World := w.call .glewInit
  if env.glewInit ≠ GLEW_OK then
    let w : World := w.toCerr "GLEW Initialization Failed!"
    let w : World := w.call (.glfwDestroyWindow env.mainWindow)
    let w : World := w.call .glfwTerminate
    (w, some (-1))
  else
  let w : World := w.call (.glViewport 0 0 env.bufferHeight env.bufferWidth)
  -- vertex shader
  let w : World := w.call (.glCreateShader .GL_VERTEX_SHADER)
  let w : World := w.call (.glShaderSource env.vertex_shader 1 vertex_shader_source)
  let w : World := w.call (.glCompileShader env.vertex_shader)
  let w : World := w.call (.glGetShaderiv env.vertex_shader .GL_COMPILE_STATUS)
  let w : World :=
    if env.vertexCompileStatus = 0 then
      let w : World := w.call (.glGetShaderInfoLog env.vertex_shader 512)
      w.toCerr ("Vertex shader compilation failed : " ++ infoLogText 512 env.vertexInfoLog)
    else
      let w : World := w.call (.glGetShaderInfoLog env.vertex_shader 512)
      w.toCout ("Vertex shader compilation succeeded" ++ infoLogText 512 env.vertexInfoLog)
  -- fragment shader
  let w : World := w.call (.glCreateShader .GL_FRAGMENT_SHADER)
  let w : World := w.call (.glShaderSource env.fragment_shader 1 fragment_shader_source)
  let w : World := w.call (.glCompileShader env.fragment_shader)
  let w : World := w.call (.glGetShaderiv env.fragment_shader .GL_COMPILE_STATUS)
  let w : World :=
    if env.fragmentCompileStatus = 0 then
      let w : World := w.call (.glGetShaderInfoLog env.fragment_shader 512)
      w.toCerr ("Fragment shader compilation failed : " ++ infoLogText 512 env.fragmentInfoLog)
    else
      let w : World := w.call (.glGetShaderInfoLog env.fragment_shader 512)
      w.toCout ("Fragment shader compilation succeeded : " ++ infoLogText 512 env.fragmentInfoLog)
  -- program
  let w : World := w.call .glCreateProgram
  let w : World := w.call (.glAttachShader env.shader_program env.vertex_shader)
  let w : World := w.call (.glAttachShader env.shader_program env.fragment_shader)
  let w : World := w.call (.glLinkProgram env.shader_program)
  let w : World := w.call (.glGetProgramiv env.shader_program .GL_LINK_STATUS)
  let w : World :=
    if env.linkStatus = 0 then
      let w : World := w.call (.glGetProgramInfoLog env.shader_program 512)
      w.toCerr ("Shader program linking failed : " ++ infoLogText 512 env.programInfoLog)
    else
      let w : World := w.call (.glGetProgramInfoLog env.shader_program 512)
      w.toCout ("Shader program linking succeeded : " ++ infoLogText 512 env.programInfoLog)
  let w : World := w.call (.glDeleteShader env.vertex_shader)
  let w : World := w.call (.glDeleteShader env.fragment_shader)
  -- vertex array and vertex buffer
  let w : World := w.call (.glGenVertexArrays 1)
  let w : World := w.call (.glGenBuffers 1)
  let w : World := w.call (.glBindVertexArray env.VAO)
  let w : World := w.call (.glBindBuffer .GL_ARRAY_BUFFER env.VBO)
  let w : World := w.call (.glBufferData .GL_ARRAY_BUFFER sizeof_vertices vertices .GL_STATIC_DRAW)
  let w : World := w.call (.glVertexAttribPointer 0 3 .GL_FLOAT false (3 * sizeof_GLfloat) 0)
  let w : World := w.call (.glEnableVertexAttribArray 0)
  let w : World := w.call (.glBindBuffer .GL_ARRAY_BUFFER 0)
  let w : World := w.call (.glBindVertexArray 0)
  -- main loop until window close
  let r := renderLoop env env.shouldClose w
  let w : World := r.1
  if r.2 then
    let w : World := w.call (.glDeleteVertexArrays 1 env.VAO)
    let w : World := w.call (.glDeleteBuffers 1 env.VBO)
    let w : World := w.call (.glDeleteProgram env.shader_program)
    let w : World := w.call .glfwTerminate
    (w, some 0)
  else
    (w, none)

/-! ## The call sequences of the phases of `main` -/

/-- The calls up to and including window creation. -/
def windowCalls : List Call :=
  [.glfwInit,
   .glfwWindowHint .GLFW_CONTEXT_VERSION_MAJOR (.int 3),
   .glfwWindowHint .GLFW_CONTEXT_VERSION_MINOR (.int 3),
   .glfwWindowHint .GLFW_OPENGL_PROFILE .GLFW_OPENGL_CORE_PROFILE,
   .glfwWindowHint .GLFW_OPENGL_FORWARD_COMPAT .GL_TRUE,
   .glfwCreateWindow 600 600 "Main Window"]

/-- The calls from the framebuffer-size query to the function-loader
initialisation. -/
def contextCalls (env : Env) : List Call :=
  [.glfwGetFramebufferSize env.mainWindow,
   .glfwMakeContextCurrent env.mainWindow,
   .glewInit]

/-- The calls that build the shader program, up to the link-status query
and the retrieval of the program's info log. -/
def shaderCalls (env : Env) : List Call :=
  [.glCreateShader .GL_VERTEX_SHADER,
   .glShaderSource env.vertex_shader 1 vertex_shader_source,
   .glCompileShader env.vertex_shader,
   .glGetShaderiv env.vertex_shader .GL_COMPILE_STATUS,
   .glGetShaderInfoLog env.vertex_shader 512,
   .glCreateShader .GL_FRAGMENT_SHADER,
   .glShaderSource env.fragment_shader 1 fragment_shader_source,
   .glCompileShader env.fragment_shader,
   .glGetShaderiv env.fragment_shader .GL_COMPILE_STATUS,
   .glGetShaderInfoLog env.fragment_shader 512,
   .glCreateProgram,
   .glAttachShader env.shader_program env.vertex_shader,
   .glAttachShader env.shader_program env.fragment_shader,
   .glLinkProgram env.shader_program,
   .glGetProgramiv env.shader_program .GL_LINK_STATUS,
   .glGetProgramInfoLog env.shader_program 512]

/-- The two calls that release the shader objects. -/
def shaderReleaseCalls (env : Env) : List Call :=
  [.glDeleteShader env.vertex_shader,
   .glDeleteShader env.fragment_shader]

/-- The calls that set up the vertex array and the vertex buffer. -/
def geometryCalls (env : Env) : List Call :=
  [.glGenVertexArrays 1,
   .glGenBuffers 1,
   .glBindVertexArray env.VAO,
   .glBindBuffer .GL_ARRAY_BUFFER env.VBO,
   .glBufferData .GL_ARRAY_BUFFER sizeof_vertices vertices .GL_STATIC_DRAW,
   .glVertexAttribPointer 0 3 .GL_FLOAT false (3 * sizeof_GLfloat) 0,
   .glEnableVertexAttribArray 0,
   .glBindBuffer .GL_ARRAY_BUFFER 0,
   .glBindVertexArray 0]

/-- Every call made before the loop is entered, on a run whose three
initialisations succeed. -/
def setupCalls (env : Env) : List Call :=
  windowCalls ++ contextCalls env
    ++ [.glViewport 0 0 env.bufferHeight env.bufferWidth]
    ++ shaderCalls env ++ shaderReleaseCalls env ++ geometryCalls env

/-- The calls of one iteration of the loop body. -/
def frameCalls (env : Env) : List Call :=
  [.glfwPollEvents,
   .glClearColor 1 0 0 1,
   .glClear .GL_COLOR_BUFFER_BIT,
   .glUseProgram env.shader_program,
   .glBindVertexArray env.VAO,
   .glDrawArrays .GL_TRIANGLES 0 3,
   .glfwSwapBuffers env.mainWindow]

/-- The calls of the loop on the given readings of the close flag: each
reading is one `glfwWindowShouldClose` call, followed by one frame when the
flag is unset. -/
def loopCalls (env : Env) : List Int → List Call
  | [] => []
  | flag :: rest =>
    .glfwWindowShouldClose env.mainWindow ::
      (if flag ≠ 0 then [] else frameCalls env ++ loopCalls env rest)

/-- Whether some reading of the close flag is set. -/
def closeRead (flags : List Int) : Bool := flags.any (fun flag => decide (flag ≠ 0))

/-- The calls made once the loop is left. -/
def teardownCalls (env : Env) : List Call :=
  [.glDeleteVertexArrays 1 env.VAO,
   .glDeleteBuffers 1 env.VBO,
   .glDeleteProgram env.shader_program,
   .glfwTerminate]

/-- All three initialisations succeed. -/
def InitOk (env : Env) : Prop :=
  env.glfwInit ≠ 0 ∧ env.mainWindow ≠ 0 ∧ env.glewInit = GLEW_OK

instance (env : Env) : Decidable (InitOk env) := by
  unfold InitOk; infer_instance

/-- An environment with the compile and link results replaced. -/
def Env.withShaderResults (env : Env) (vs fs ls : Int) (vlog flog plog : String) : Env :=
  { env with
    vertexCompileStatus := vs, vertexInfoLog := vlog,
    fragmentCompileStatus := fs, fragmentInfoLog := flog,
    linkStatus := ls, programInfoLog := plog }

/-- The text written to `std::cout` while the shaders are built. -/
def shaderCout (env : Env) : List String :=
  (if env.vertexCompileStatus = 0 then []
    else ["Vertex shader compilation succeeded" ++ infoLogText 512 env.vertexInfoLog ++ "\n"])
  ++ (if env.fragmentCompileStatus = 0 then []
    else ["Fragment shader compilation succeeded : "
            ++ infoLogText 512 env.fragmentInfoLog ++ "\n"])
  ++ (if env.linkStatus = 0 then []
    else ["Shader program linking succeeded : " ++ infoLogText 512 env.programInfoLog ++ "\n"])

/-- The text written to `std::cerr` while the shaders are built. -/
def shaderCerr (env : Env) : List String :=
  (if env.vertexCompileStatus = 0 then
      ["Vertex shader compilation failed : " ++ infoLogText 512 env.vertexInfoLog ++ "\n"]
    else [])
  ++ (if env.fragmentCompileStatus = 0 then
      ["Fragment shader compilation failed : " ++ infoLogText 512 env.fragmentInfoLog ++ "\n"]
    else [])
  ++ (if env.linkStatus = 0 then
      ["Shader program linking failed : " ++ infoLogText 512 env.programInfoLog ++ "\n"]
    else [])

/-- Whether the call reads the close flag. -/
def Call.isWindowShouldClose : Call → Bool
  | .glfwWindowShouldClose _ => true
  | _ => false

/-- Whether the call is `glUseProgram` on the given program. -/
def Call.isUseProgram (program : Nat) : Call → Bool
  | .glUseProgram p => p == program
  | _ => false

/-- Whether the call is a draw call. -/
def Call.isDraw : Call → Bool
  | .glDrawArrays _ _ _ => true
  | _ => false

/-- The calls of `n` passes through the loop: each pass reads the close flag
as unset and renders one frame. -/
def passesCalls (env : Env) (n : Nat) : List Call :=
  (List.replicate n (Call.glfwWindowShouldClose env.mainWindow :: frameCalls env)).flatten

/-- The calls of `n` frames, the readings of the close flag left out. -/
def framesCalls (env : Env) (n : Nat) : List Call :=
  (List.replicate n (frameCalls env)).flatten

/-- The world with the text of the two output streams left out. -/
def World.withoutText (w : World) : World :=
  { w with cout := [], cerr := [] }

/-- Whether the call destroys a window. -/
def Call.isDestroyWindow : Call → Bool
  | .glfwDestroyWindow _ => true
  | _ => false

/-- Whether the call is an OpenGL call or a buffer swap: every call other
than the GLFW window-management calls and `glewInit`. -/
def Call.isGraphicsCall : Call → Bool
  | .glfwInit => false
  | .glfwTerminate => false
  | .glfwWindowHint _ _ => false
  | .glfwCreateWindow _ _ _ => false
  | .glfwGetFramebufferSize _ => false
  | .glfwMakeContextCurrent _ => false
  | .glewInit => false
  | .glfwDestroyWindow _ => false
  | .glfwWindowShouldClose _ => false
  | .glfwPollEvents => false
  | _ => true

/-- Whether the call creates or deletes a GPU object, or defines the content
of one (source, binary, buffer data, attribute layout). -/
def Call.changesObjects : Call → Bool
  | .glCreateShader _ => true
  | .glShaderSource _ _ _ => true
  | .glCompileShader _ => true
  | .glCreateProgram => true
  | .glAttachShader _ _ => true
  | .glLinkProgram _ => true
  | .glDeleteShader _ => true
  | .glGenVertexArrays _ => true
  | .glGenBuffers _ => true
  | .glBufferData _ _ _ _ => true
  | .glVertexAttribPointer _ _ _ _ _ _ => true
  | .glEnableVertexAttribArray _ => true
  | .glDeleteVertexArrays _ _ => true
  | .glDeleteBuffers _ _ => true
  | .glDeleteProgram _ => true
  | _ => false

/-- A run in which every library call succeeds, on an 800 x 600 framebuffer,
with the given readings of the close flag. -/
def sampleEnv (flags : List Int) : Env :=
  { glfwInit := 1, mainWindow := 7, bufferWidth := 800, bufferHeight := 600,
    glewInit := 0,
    vertex_shader := 1, vertexCompileStatus := 1, vertexInfoLog := "",
    fragment_shader := 2, fragmentCompileStatus := 1, fragmentInfoLog := "",
    shader_program := 3, linkStatus := 1, programInfoLog := "",
    VAO := 1, VBO := 1, shouldClose := flags }

/-- An environment in which `glfwInit` fails. -/
def envGlfwInitFails : Env := { sampleEnv [] with glfwInit := 0 }

/-- An environment in which window creation fails. -/
def envWindowFails : Env := { sampleEnv [] with mainWindow := 0 }

/-- An environment in which `glewInit` fails. -/
def envGlewInitFails : Env := { sampleEnv [] with glewInit := 1 }

/-- Whether the call swaps the buffers of a window. -/
def Call.isSwapBuffers : Call → Bool
  | .glfwSwapBuffers _ => true
  | _ => false

/-- Whether the call is `glDeleteShader`. -/
def Call.isDeleteShader : Call → Bool
  | .glDeleteShader _ => true
  | _ => false

/-- Whether the call is `glDeleteShader` on the given shader object. -/
def Call.isDeleteShaderOf (shader : Nat) : Call → Bool
  | .glDeleteShader s => s == shader
  | _ => false

/-- Whether the call is `glDeleteProgram`. -/
def Call.isDeleteProgram : Call → Bool
  | .glDeleteProgram _ => true
  | _ => false

/-- Whether the call takes a shader object as an argument. -/
def Call.takesShader : Call → Bool
  | .glShaderSource _ _ _ => true
  | .glCompileShader _ => true
  | .glGetShaderiv _ _ => true
  | .glGetShaderInfoLog _ _ => true
  | .glAttachShader _ _ => true
  | .glDeleteShader _ => true
  | _ => false

/-- Whether the call is passed the given shader object. -/
def Call.usesShader (shader : Nat) : Call → Bool
  | .glShaderSource s _ _ => s == shader
  | .glCompileShader s => s == shader
  | .glGetShaderiv s _ => s == shader
  | .glGetShaderInfoLog s _ => s == shader
  | .glAttachShader _ s => s == shader
  | .glDeleteShader s => s == shader
  | _ => false

/-- Whether, somewhere in the trace, the given shader object is deleted and
later passed to a call again. -/
def usedAfterDelete (shader : Nat) : List Call → Bool
  | [] => false
  | c :: cs =>
    (c.isDeleteShaderOf shader && cs.any (Call.usesShader shader))
      || usedAfterDelete shader cs

/-- Whether the call is `glViewport`. -/
def Call.isViewport : Call → Bool
  | .glViewport _ _ _ _ => true
  | _ => false

/-- Whether the call is `glBufferData`. -/
def Call.isBufferData : Call → Bool
  | .glBufferData _ _ _ _ => true
  | _ => false

/-- The layout `glVertexAttribPointer` records for one vertex attribute,
with the buffer it is sourced from. -/
structure AttribPointer where
  /-- The number of components. -/
  size : Nat
  /-- The component type. -/
  type : GLenum
  /-- Whether fixed-point data is normalised. -/
  normalized : Bool
  /-- The byte distance between consecutive vertices. -/
  stride : Nat
  /-- The byte offset of the first component in the buffer. -/
  offset : Nat
  /-- The buffer bound to the array-buffer target when the layout was set. -/
  buffer : Nat
  deriving DecidableEq, Repr

/-- The OpenGL binding state the program touches: the current vertex array,
the current array buffer, and the attribute table of every vertex array. -/
structure GLState where
  /-- The name of the bound vertex array, 0 when none is bound. -/
  vertexArrayBinding : Nat
  /-- The name of the buffer bound to `GL_ARRAY_BUFFER`, 0 when none is. -/
  arrayBufferBinding : Nat
  /-- Per vertex array and attribute index: whether the attribute is enabled. -/
  attribEnabled : Nat → Nat → Bool
  /-- Per vertex array and attribute index: the recorded layout, if any. -/
  attribPointer : Nat → Nat → Option AttribPointer

/-- The binding state of a fresh context: nothing bound, nothing enabled. -/
def GLState.initial : GLState :=
  { vertexArrayBinding := 0, arrayBufferBinding := 0,
    attribEnabled := fun _ _ => false, attribPointer := fun _ _ => none }

/-- The effect of one call on the binding state, after the OpenGL 3.3 core
profile: attribute calls act on the bound vertex array and are rejected when
none is bound; `glVertexAttribPointer` records the buffer bound to
`GL_ARRAY_BUFFER` at the time of the call; deleting a bound object unbinds it. -/
def GLState.step (s : GLState) : Call → GLState
  | .glBindVertexArray array => { s with vertexArrayBinding := array }
  | .glBindBuffer .GL_ARRAY_BUFFER buffer => { s with arrayBufferBinding := buffer }
  | .glVertexAttribPointer index size type normalized stride pointer =>
    if s.vertexArrayBinding = 0 then s
    else
      { s with attribPointer := fun a i =>
          if a = s.vertexArrayBinding ∧ i = index then
            some { size := size, type := type, normalized := normalized,
                   stride := stride, offset := pointer, buffer := s.arrayBufferBinding }
          else s.attribPointer a i }
  | .glEnableVertexAttribArray index =>
    if s.vertexArrayBinding = 0 then s
    else
      { s with attribEnabled := fun a i =>
          if a = s.vertexArrayBinding ∧ i = index then true else s.attribEnabled a i }
  | .glDeleteVertexArrays _ array =>
    { s with
      vertexArrayBinding := if s.vertexArrayBinding = array then 0 else s.vertexArrayBinding,
      attribEnabled := fun a i => if a = array then false else s.attribEnabled a i,
      attribPointer := fun a i => if a = array then none else s.attribPointer a i }
  | .glDeleteBuffers _ buffer =>
    { s with
      arrayBufferBinding := if s.arrayBufferBinding = buffer then 0 else s.arrayBufferBinding }
  | _ => s

/-- The binding state after a sequence of calls. -/
def GLState.run (s : GLState) (calls : List Call) : GLState :=
  calls.foldl GLState.step s

/-- The calls made after the last reading of the close flag. -/
def callsAfterLoop (calls : List Call) : List Call :=
  (calls.reverse.takeWhile (fun c => !c.isWindowShouldClose)).reverse

/-- Whether the call creates or releases windows. -/
def Call.isWindowLifetime : Call → Bool
  | .glfwCreateWindow _ _ _ => true
  | .glfwDestroyWindow _ => true
  | .glfwTerminate => true
  | _ => false

/-- The windows, each with its context, that exist in the windowing
subsystem. -/
structure GLFWState where
  /-- The pointers of the windows that exist. -/
  windows : List Nat

/-- The windowing subsystem before any call: no window exists. -/
def GLFWState.initial : GLFWState := { windows := [] }

/-- The effect of one call on the existing windows, after the GLFW
documentation: `glfwCreateWindow` adds the window it returns (`created`,
none when it returns `NULL`), `glfwDestroyWindow` releases the given window
and its context, and `glfwTerminate` destroys all remaining windows. -/
def GLFWState.step (created : Nat) (s : GLFWState) : Call → GLFWState
  | .glfwCreateWindow _ _ _ =>
    if created = 0 then s else { windows := created :: s.windows }
  | .glfwDestroyWindow window => { windows := s.windows.filter (fun w => w != window) }
  | .glfwTerminate => { windows := [] }
  | _ => s

/-- The existing windows after a sequence of calls. -/
def GLFWState.run (created : Nat) (s : GLFWState) (calls : List Call) : GLFWState :=
  calls.foldl (GLFWState.step created) s

/-! ## The shape of every run -/

theorem clearColor_literals :
    Call.glClearColor 1.0 0.0 0.0 1.0 = Call.glClearColor 1 0 0 1 := by
  norm_num

theorem renderLoop_eq (env : Env) (flags : List Int) (w : World) :
    renderLoop env flags w
      = ({ w with calls := w.calls ++ loopCalls env flags }, closeRead flags) := by
  induction flags generalizing w with
  | nil => simp [renderLoop, loopCalls, closeRead]
  | cons flag rest ih =>
    by_cases h : flag = 0
    · simp [renderLoop, loopCalls, closeRead, h, ih, World.call, frameCalls,
        clearColor_literals]
    · simp [renderLoop, loopCalls, closeRead, h, World.call]

theorem main_of_initOk (env : Env) (h : InitOk env) :
    main env
      = ({ calls := setupCalls env ++ loopCalls env env.shouldClose
                      ++ (if closeRead env.shouldClose then teardownCalls env else []),
           cout := shaderCout env,
           cerr := shaderCerr env,
           glewExperimental := true },
         if closeRead env.shouldClose then some 0 else none) := by
  obtain ⟨h1, h2, h3⟩ := h
  by_cases hv : env.vertexCompileStatus = 0 <;>
  by_cases hf : env.fragmentCompileStatus = 0 <;>
  by_cases hl : env.linkStatus = 0 <;>
  by_cases hc : closeRead env.shouldClose = true <;>
  simp [main, h1, h2, h3, hv, hf, hl, hc, renderLoop_eq, World.call, World.toCout,
    World.toCerr, setupCalls, windowCalls, contextCalls, shaderCalls, shaderReleaseCalls,
    geometryCalls, teardownCalls, WIDTH, HEIGHT, shaderCout, shaderCerr]

theorem loopCalls_replicate (env : Env) (n : Nat) (flag : Int) (rest : List Int)
    (h : flag ≠ 0) :
    loopCalls env (List.replicate n 0 ++ flag :: rest)
      = passesCalls env n ++ [.glfwWindowShouldClose env.mainWindow] := by
  induction n with
  | zero => simp [loopCalls, passesCalls, h]
  | succ n ih =>
    simp [List.replicate_succ, loopCalls, passesCalls, ih] at *

theorem closeRead_replicate (n : Nat) (flag : Int) (rest : List Int) (h : flag ≠ 0) :
    closeRead (List.replicate n 0 ++ flag :: rest) = true := by
  simp [closeRead, h]

theorem main_of_glfwInit_failed (env : Env) (h : env.glfwInit = 0) :
    main env
      = ({ calls := [.glfwInit, .glfwTerminate],
           cout := ["GLFW Initialization Failed!" ++ "\n"],
           cerr := [],
           glewExperimental := false }, some 1) := by
  simp [main, h, World.call, World.toCout]

theorem main_of_window_failed (env : Env) (h1 : env.glfwInit ≠ 0)
    (h2 : env.mainWindow = 0) :
    main env
      = ({ calls := windowCalls ++ [.glfwTerminate],
           cout := [],
           cerr := ["Window Creation Failed!" ++ "\n"],
           glewExperimental := false }, some (-1)) := by
  simp [main, h1, h2, World.call, World.toCerr, windowCalls, WIDTH, HEIGHT]

theorem main_of_glewInit_failed (env : Env) (h1 : env.glfwInit ≠ 0)
    (h2 : env.mainWindow ≠ 0) (h3 : env.glewInit ≠ GLEW_OK) :
    main env
      = ({ calls := windowCalls ++ contextCalls env
                      ++ [.glfwDestroyWindow env.mainWindow, .glfwTerminate],
           cout := [],
           cerr := ["GLEW Initialization Failed!" ++ "\n"],
           glewExperimental := true }, some (-1)) := by
  simp [main, h1, h2, h3, World.call, World.toCerr, windowCalls, contextCalls, WIDTH, HEIGHT]

theorem closeRead_iff (flags : List Int) :
    closeRead flags = true ↔ ∃ flag ∈ flags, flag ≠ 0 := by
  simp [closeRead]

theorem loopCalls_withShaderResults (env : Env) (vs fs ls : Int) (vlog flog plog : String)
    (flags : List Int) :
    loopCalls (env.withShaderResults vs fs ls vlog flog plog) flags = loopCalls env flags := by
  induction flags with
  | nil => rfl
  | cons flag rest ih =>
    simp only [loopCalls, ih]
    rfl

theorem main_withoutText_withShaderResults (env : Env) (vs fs ls : Int)
    (vlog flog plog : String) :
    (main (env.withShaderResults vs fs ls vlog flog plog)).1.withoutText
        = (main env).1.withoutText ∧
      (main (env.withShaderResults vs fs ls vlog flog plog)).2 = (main env).2 := by
  by_cases h1 : env.glfwInit = 0
  · rw [main_of_glfwInit_failed (env.withShaderResults vs fs ls vlog flog plog) h1, main_of_glfwInit_failed env h1]
    exact ⟨rfl, rfl⟩
  · by_cases h2 : env.mainWindow = 0
    · rw [main_of_window_failed (env.withShaderResults vs fs ls vlog flog plog) h1 h2, main_of_window_failed env h1 h2]
      exact ⟨rfl, rfl⟩
    · by_cases h3 : env.glewInit = GLEW_OK
      · rw [main_of_initOk (env.withShaderResults vs fs ls vlog flog plog) ⟨h1, h2, h3⟩,
          main_of_initOk env ⟨h1, h2, h3⟩]
        simp only [World.withoutText, loopCalls_withShaderResults]
        exact ⟨rfl, rfl⟩
      · rw [main_of_glewInit_failed (env.withShaderResults vs fs ls vlog flog plog) h1 h2 h3, main_of_glewInit_failed env h1 h2 h3]
        exact ⟨rfl, rfl⟩

theorem countP_passesCalls_isUseProgram (env : Env) (n : Nat) :
    (passesCalls env n).countP (Call.isUseProgram env.shader_program) = n := by
  induction n with
  | zero => simp [passesCalls]
  | succ n ih =>
    simp only [passesCalls, List.replicate_succ, List.flatten_cons] at *
    rw [List.cons_append, List.countP_cons, List.countP_append, ih]
    simp [frameCalls, Call.isUseProgram, List.countP_cons]
    omega

theorem countP_passesCalls_isDraw (env : Env) (n : Nat) :
    (passesCalls env n).countP Call.isDraw = n := by
  induction n with
  | zero => simp [passesCalls]
  | succ n ih =>
    simp only [passesCalls, List.replicate_succ, List.flatten_cons] at *
    rw [List.cons_append, List.countP_cons, List.countP_append, ih]
    simp [frameCalls, Call.isDraw, List.countP_cons]
    omega

theorem main_calls_of_closing (env : Env) (n : Nat) (flag : Int) (rest : List Int)
    (h : InitOk env) (hf : flag ≠ 0)
    (hs : env.shouldClose = List.replicate n 0 ++ flag :: rest) :
    (main env).1.calls
      = setupCalls env ++ passesCalls env n ++ [.glfwWindowShouldClose env.mainWindow]
          ++ teardownCalls env := by
  rw [main_of_initOk env h, hs]
  simp [loopCalls_replicate env n flag rest hf, closeRead_replicate n flag rest hf]

theorem countP_passesCalls (env : Env) (p : Call → Bool) (n : Nat) :
    (passesCalls env n).countP p
      = n * (Call.glfwWindowShouldClose env.mainWindow :: frameCalls env).countP p := by
  induction n with
  | zero => simp [passesCalls]
  | succ n ih =>
    simp only [passesCalls, List.replicate_succ, List.flatten_cons] at *
    rw [List.countP_append, ih]
    ring

theorem filter_passesCalls (env : Env) (n : Nat) :
    (passesCalls env n).filter (fun c => !c.isWindowShouldClose) = framesCalls env n := by
  induction n with
  | zero => simp [passesCalls, framesCalls]
  | succ n ih =>
    simp only [passesCalls, framesCalls, List.replicate_succ, List.flatten_cons] at *
    rw [List.filter_append, ih]
    simp [frameCalls, Call.isWindowShouldClose, List.filter_cons]

theorem loopCalls_forall (env : Env) (p : Call → Bool)
    (h0 : p (.glfwWindowShouldClose env.mainWindow) = false)
    (hframe : ∀ c ∈ frameCalls env, p c = false) (flags : List Int) :
    ∀ c ∈ loopCalls env flags, p c = false := by
  induction flags with
  | nil => simp [loopCalls]
  | cons flag rest ih =>
    intro c hc
    by_cases hflag : flag = 0
    · simp only [loopCalls, hflag, ne_eq, not_true_eq_false, if_false, List.mem_cons,
        List.mem_append] at hc
      rcases hc with rfl | hc | hc
      · exact h0
      · exact hframe c hc
      · exact ih c hc
    · simp only [loopCalls, hflag, ne_eq, not_false_eq_true, if_true, List.mem_cons,
        List.not_mem_nil, or_false] at hc
      rw [hc]; exact h0

theorem countP_loopCalls_eq_zero (env : Env) (p : Call → Bool)
    (h0 : p (.glfwWindowShouldClose env.mainWindow) = false)
    (hframe : ∀ c ∈ frameCalls env, p c = false) (flags : List Int) :
    (loopCalls env flags).countP p = 0 := by
  rw [List.countP_eq_zero]
  intro c hc
  simp [loopCalls_forall env p h0 hframe flags c hc]

theorem any_loopCalls_eq_false (env : Env) (p : Call → Bool)
    (h0 : p (.glfwWindowShouldClose env.mainWindow) = false)
    (hframe : ∀ c ∈ frameCalls env, p c = false) (flags : List Int) :
    (loopCalls env flags).any p = false := by
  rw [List.any_eq_false]
  intro c hc
  simp [loopCalls_forall env p h0 hframe flags c hc]

theorem usedAfterDelete_of_unused (shader : Nat) (cs : List Call)
    (h : cs.any (Call.usesShader shader) = false) : usedAfterDelete shader cs = false := by
  induction cs with
  | nil => rfl
  | cons c cs ih =>
    simp only [List.any_cons, Bool.or_eq_false_iff] at h
    simp [usedAfterDelete, h.2, ih h.2]

theorem usedAfterDelete_append (shader : Nat) (as bs : List Call)
    (h : bs.any (Call.usesShader shader) = false) :
    usedAfterDelete shader (as ++ bs) = usedAfterDelete shader as := by
  induction as with
  | nil => simpa using usedAfterDelete_of_unused shader bs h
  | cons c cs ih =>
    simp [usedAfterDelete, ih, List.any_append, h]

theorem main_calls_split (env : Env) (h : InitOk env) :
    (main env).1.calls
      = (windowCalls ++ contextCalls env
          ++ [.glViewport 0 0 env.bufferHeight env.bufferWidth]
          ++ [.glCreateShader .GL_VERTEX_SHADER,
              .glShaderSource env.vertex_shader 1 vertex_shader_source,
              .glCompileShader env.vertex_shader,
              .glGetShaderiv env.vertex_shader .GL_COMPILE_STATUS,
              .glGetShaderInfoLog env.vertex_shader 512,
              .glCreateShader .GL_FRAGMENT_SHADER,
              .glShaderSource env.fragment_shader 1 fragment_shader_source,
              .glCompileShader env.fragment_shader,
              .glGetShaderiv env.fragment_shader .GL_COMPILE_STATUS,
              .glGetShaderInfoLog env.fragment_shader 512,
              .glCreateProgram,
              .glAttachShader env.shader_program env.vertex_shader,
              .glAttachShader env.shader_program env.fragment_shader])
        ++ [.glLinkProgram env.shader_program,
            .glGetProgramiv env.shader_program .GL_LINK_STATUS,
            .glGetProgramInfoLog env.shader_program 512,
            .glDeleteShader env.vertex_shader,
            .glDeleteShader env.fragment_shader]
        ++ (geometryCalls env ++ loopCalls env env.shouldClose
              ++ (if closeRead env.shouldClose then teardownCalls env else [])) := by
  rw [main_of_initOk env h]
  simp [setupCalls, shaderCalls, shaderReleaseCalls]

theorem filter_loopCalls_eq_nil (env : Env) (p : Call → Bool)
    (h0 : p (.glfwWindowShouldClose env.mainWindow) = false)
    (hframe : ∀ c ∈ frameCalls env, p c = false) (flags : List Int) :
    (loopCalls env flags).filter p = [] := by
  rw [List.filter_eq_nil_iff]
  intro c hc
  simp [loopCalls_forall env p h0 hframe flags c hc]

theorem vertices_eq : vertices = [-1/2, -1/2, 0, 1/2, -1/2, 0, 0, 1/2, 0] := by
  norm_num [vertices]

theorem sizeof_vertices_eq : sizeof_vertices = 36 := by
  simp [sizeof_vertices, vertices, sizeof_GLfloat]

theorem takeWhile_loopCalls (env : Env) (flags : List Int) (tail : List Call)
    (ht : closeRead flags = false → tail = []) :
    (loopCalls env flags ++ tail).takeWhile (fun c => !c.isWindowShouldClose) = [] := by
  cases flags with
  | nil => simp [loopCalls, ht (by simp [closeRead])]
  | cons flag rest => simp [loopCalls, Call.isWindowShouldClose, List.takeWhile_cons]

theorem callsBeforeLoop_eq (env : Env) (h : InitOk env) :
    (main env).1.calls.takeWhile (fun c => !c.isWindowShouldClose) = setupCalls env := by
  rw [main_of_initOk env h]
  simp only [List.append_assoc]
  rw [List.takeWhile_append_of_pos, takeWhile_loopCalls, List.append_nil]
  · intro hc; simp [hc]
  · have hall : (setupCalls env).all (fun c => !c.isWindowShouldClose) = true := by
      simp [setupCalls, windowCalls, contextCalls, shaderCalls, shaderReleaseCalls,
        geometryCalls, Call.isWindowShouldClose]
    exact List.all_eq_true.mp hall

theorem callsAfterLoop_append (pre post : List Call) (c : Call)
    (hc : c.isWindowShouldClose = true)
    (hpost : post.all (fun c => !c.isWindowShouldClose) = true) :
    callsAfterLoop (pre ++ [c] ++ post) = post := by
  have hall : ∀ a ∈ post.reverse, (fun c : Call => !c.isWindowShouldClose) a = true := by
    intro a ha
    exact List.all_eq_true.mp hpost a (List.mem_reverse.mp ha)
  unfold callsAfterLoop
  rw [List.reverse_append, List.reverse_append, List.takeWhile_append_of_pos hall]
  simp [List.takeWhile_cons, hc]

theorem GLFWState.step_of_not_isWindowLifetime (created : Nat) (s : GLFWState) (c : Call)
    (h : c.isWindowLifetime = false) : GLFWState.step created s c = s := by
  cases c <;> first | rfl | simp [Call.isWindowLifetime] at h

theorem GLFWState.run_of_not_isWindowLifetime (created : Nat) (s : GLFWState)
    (calls : List Call) (h : calls.countP Call.isWindowLifetime = 0) :
    GLFWState.run created s calls = s := by
  induction calls generalizing s with
  | nil => rfl
  | cons c cs ih =>
    rw [List.countP_eq_zero] at h
    have hc : c.isWindowLifetime = false := by
      simpa using h c (List.mem_cons_self c cs)
    have hcs : cs.countP Call.isWindowLifetime = 0 := by
      rw [List.countP_eq_zero]
      intro a ha
      exact h a (List.mem_cons_of_mem c ha)
    simp only [GLFWState.run, List.foldl_cons] at *
    rw [GLFWState.step_of_not_isWindowLifetime created s c hc]
    exact ih s hcs

theorem GLFWState.run_append (created : Nat) (s : GLFWState) (as bs : List Call) :
    GLFWState.run created s (as ++ bs)
      = GLFWState.run created (GLFWState.run created s as) bs := by
  simp [GLFWState.run, List.foldl_append]

theorem GLFWState.run_setupCalls (env : Env) (h : env.mainWindow ≠ 0) :
    GLFWState.run env.mainWindow GLFWState.initial (setupCalls env)
      = { windows := [env.mainWindow] } := by
  simp [setupCalls, windowCalls, contextCalls, shaderCalls, shaderReleaseCalls,
    geometryCalls, GLFWState.run, GLFWState.step, GLFWState.initial, h]

theorem callsAfterLoop_main (env : Env) (n : Nat) (flag : Int) (rest : List Int)
    (h : InitOk env) (hf : flag ≠ 0)
    (hs : env.shouldClose = List.replicate n 0 ++ flag :: rest) :
    callsAfterLoop (main env).1.calls = teardownCalls env := by
  rw [main_calls_of_closing env n flag rest h hf hs]
  exact callsAfterLoop_append _ _ _ rfl (by simp [teardownCalls, Call.isWindowShouldClose])

/-! ## The claims -/

/-- C1: `main` returns 1 exactly when `glfwInit` fails, -1 exactly when
`glfwInit` succeeds and window creation or `glewInit` fails, 0 exactly when
all three initialisations succeed and some reading of the close flag is set;
it returns nothing exactly when the initialisations succeed and no reading is
set, so no other exit code is possible; and the value does not depend on the
compile and link results. -/
theorem C1_exit_code (env : Env) :
    ((main env).2 = some 1 ↔ env.glfwInit = 0) ∧
    ((main env).2 = some (-1) ↔
        env.glfwInit ≠ 0 ∧ (env.mainWindow = 0 ∨ env.glewInit ≠ GLEW_OK)) ∧
    ((main env).2 = some 0 ↔
        (env.glfwInit ≠ 0 ∧ env.mainWindow ≠ 0 ∧ env.glewInit = GLEW_OK) ∧
          ∃ flag ∈ env.shouldClose, flag ≠ 0) ∧
    ((main env).2 = none ↔
        (env.glfwInit ≠ 0 ∧ env.mainWindow ≠ 0 ∧ env.glewInit = GLEW_OK) ∧
          ∀ flag ∈ env.shouldClose, flag = 0) ∧
    (∀ code, (main env).2 = some code → code = 1 ∨ code = -1 ∨ code = 0) ∧
    (∀ (vs fs ls : Int) (vlog flog plog : String),
        (main (env.withShaderResults vs fs ls vlog flog plog)).2 = (main env).2) := by
  have key : ∀ e : Env, (main e).2 =
      if e.glfwInit = 0 then some 1
      else if e.mainWindow = 0 ∨ e.glewInit ≠ GLEW_OK then some (-1)
      else if closeRead e.shouldClose then some 0 else none := by
    intro e
    by_cases h1 : e.glfwInit = 0
    · simp [main_of_glfwInit_failed e h1, h1]
    · by_cases h2 : e.mainWindow = 0
      · simp [main_of_window_failed e h1 h2, h1, h2]
      · by_cases h3 : e.glewInit = GLEW_OK
        · simp [main_of_initOk e ⟨h1, h2, h3⟩, h1, h2, h3]
        · simp [main_of_glewInit_failed e h1 h2 h3, h1, h2, h3]
  have hc : (closeRead env.shouldClose = false) ↔ ∀ flag ∈ env.shouldClose, flag = 0 := by
    simp [closeRead]
  refine ⟨?_, ?_, ?_, ?_, ?_, ?_⟩
  · rw [key]; split_ifs <;> simp_all
  · rw [key]; split_ifs <;> simp_all
  · rw [key, ← closeRead_iff]
    split_ifs <;> simp_all
    tauto
  · rw [key, ← hc]
    split_ifs <;> simp_all
    tauto
  · intro code; rw [key]; split_ifs <;> simp_all
  · intro vs fs ls vlog flog plog
    rw [key, key]; rfl

/-- C2: replacing the compile statuses, the link status and the info logs
by any others changes neither the sequence of library calls nor the exit code:
the two runs differ in the text on `std::cout` / `std::cerr` only.  On a run
whose link status is false and whose loop renders `n` frames, `glUseProgram`
is called on the program object `n` times, once per draw call. -/
theorem C2_report_and_continue (env : Env) (vs fs ls : Int) (vlog flog plog : String) :
    (main (env.withShaderResults vs fs ls vlog flog plog)).1.calls = (main env).1.calls ∧
    (main (env.withShaderResults vs fs ls vlog flog plog)).1.withoutText
        = (main env).1.withoutText ∧
    (main (env.withShaderResults vs fs ls vlog flog plog)).2 = (main env).2 ∧
    (∀ (n : Nat) (flag : Int) (rest : List Int),
        InitOk env → flag ≠ 0 → env.shouldClose = List.replicate n 0 ++ flag :: rest →
        ((main (env.withShaderResults vs fs 0 vlog flog plog)).1.calls.countP
            (Call.isUseProgram env.shader_program) = n ∧
          (main (env.withShaderResults vs fs 0 vlog flog plog)).1.calls.countP
            Call.isDraw = n)) := by
  have key := main_withoutText_withShaderResults env vs fs ls vlog flog plog
  have kc := congrArg World.calls key.1
  refine ⟨kc, key.1, key.2, ?_⟩
  intro n flag rest h hf hs
  rw [main_calls_of_closing (env.withShaderResults vs fs 0 vlog flog plog) n flag rest h hf hs]
  have e1 : (passesCalls (env.withShaderResults vs fs 0 vlog flog plog) n).countP
      (Call.isUseProgram env.shader_program) = n :=
    countP_passesCalls_isUseProgram (env.withShaderResults vs fs 0 vlog flog plog) n
  have e2 := countP_passesCalls_isDraw (env.withShaderResults vs fs 0 vlog flog plog) n
  constructor
  · rw [List.countP_append, List.countP_append, List.countP_append, e1]
    simp [setupCalls, windowCalls, contextCalls, shaderCalls, shaderReleaseCalls,
      geometryCalls, teardownCalls, Call.isUseProgram, List.countP_cons]
  · rw [List.countP_append, List.countP_append, List.countP_append, e2]
    simp [setupCalls, windowCalls, contextCalls, shaderCalls, shaderReleaseCalls,
      geometryCalls, teardownCalls, Call.isDraw, List.countP_cons]

/-- C2, at a run with failed compile and link statuses whose loop renders two
frames. -/
theorem C2_report_and_continue_witness :
    InitOk (sampleEnv [0, 0, 1]) ∧ (1 : Int) ≠ 0 ∧
    (sampleEnv [0, 0, 1]).shouldClose = List.replicate 2 0 ++ 1 :: [] ∧
    ((main ((sampleEnv [0, 0, 1]).withShaderResults 0 0 0 "e" "e" "e")).1.calls.countP
        (Call.isUseProgram (sampleEnv [0, 0, 1]).shader_program) = 2 ∧
      (main ((sampleEnv [0, 0, 1]).withShaderResults 0 0 0 "e" "e" "e")).1.calls.countP
        Call.isDraw = 2) :=
  have h : InitOk (sampleEnv [0, 0, 1]) := ⟨by decide, by decide, rfl⟩
  ⟨h, by decide, rfl,
    (C2_report_and_continue (sampleEnv [0, 0, 1]) 0 0 0 "e" "e" "e").2.2.2 2 1 [] h
      (by decide) rfl⟩

/-- C3: on a run that reaches the loop and renders `n` frames, the
calls made after the reading that ends the loop are exactly
`glDeleteVertexArrays`, `glDeleteBuffers`, `glDeleteProgram`,
`glfwTerminate`, in this order, once each, and the run holds no
`glfwDestroyWindow` call.  The window exists when the loop is left and still
exists after the three GPU-object releases; it is released by
`glfwTerminate`, which destroys the remaining windows while shutting the
windowing subsystem down, so no window exists at the end. -/
theorem C3_teardown (env : Env) (n : Nat) (flag : Int) (rest : List Int)
    (h : InitOk env) (hf : flag ≠ 0)
    (hs : env.shouldClose = List.replicate n 0 ++ flag :: rest) :
    callsAfterLoop (main env).1.calls
        = [.glDeleteVertexArrays 1 env.VAO,
           .glDeleteBuffers 1 env.VBO,
           .glDeleteProgram env.shader_program,
           .glfwTerminate] ∧
    (main env).1.calls
        = (setupCalls env ++ passesCalls env n ++ [.glfwWindowShouldClose env.mainWindow])
          ++ [.glDeleteVertexArrays 1 env.VAO,
              .glDeleteBuffers 1 env.VBO,
              .glDeleteProgram env.shader_program,
              .glfwTerminate] ∧
    (main env).1.calls.countP Call.isDestroyWindow = 0 ∧
    (GLFWState.run env.mainWindow GLFWState.initial
        (setupCalls env ++ passesCalls env n
          ++ [.glfwWindowShouldClose env.mainWindow])).windows = [env.mainWindow] ∧
    (GLFWState.run env.mainWindow GLFWState.initial
        ((setupCalls env ++ passesCalls env n ++ [.glfwWindowShouldClose env.mainWindow])
          ++ [.glDeleteVertexArrays 1 env.VAO,
              .glDeleteBuffers 1 env.VBO,
              .glDeleteProgram env.shader_program])).windows = [env.mainWindow] ∧
    (GLFWState.run env.mainWindow GLFWState.initial (main env).1.calls).windows = [] := by
  have hc := main_calls_of_closing env n flag rest h hf hs
  have hp : (passesCalls env n ++ [Call.glfwWindowShouldClose env.mainWindow]).countP
      Call.isWindowLifetime = 0 := by
    rw [List.countP_append, countP_passesCalls]
    simp [frameCalls, Call.isWindowLifetime, List.countP_cons]
  have hopen : GLFWState.run env.mainWindow GLFWState.initial
      (setupCalls env ++ passesCalls env n ++ [.glfwWindowShouldClose env.mainWindow])
        = { windows := [env.mainWindow] } := by
    rw [List.append_assoc, GLFWState.run_append, GLFWState.run_setupCalls env h.2.1,
      GLFWState.run_of_not_isWindowLifetime _ _ _ hp]
  refine ⟨callsAfterLoop_main env n flag rest h hf hs, by rw [hc]; rfl, ?_, ?_, ?_, ?_⟩
  · rw [hc]
    simp only [List.countP_append, countP_passesCalls]
    simp [setupCalls, windowCalls, contextCalls, shaderCalls, shaderReleaseCalls,
      geometryCalls, teardownCalls, frameCalls, Call.isDestroyWindow, List.countP_cons]
  · rw [hopen]
  · rw [GLFWState.run_append, hopen]
    rfl
  · rw [hc, GLFWState.run_append, hopen]
    rfl

/-- C3, at a run whose first reading of the close flag is set. -/
theorem C3_teardown_witness :
    InitOk (sampleEnv [1]) ∧ (1 : Int) ≠ 0 ∧
    (sampleEnv [1]).shouldClose = List.replicate 0 0 ++ 1 :: [] ∧
    callsAfterLoop (main (sampleEnv [1])).1.calls
        = [.glDeleteVertexArrays 1 1, .glDeleteBuffers 1 1, .glDeleteProgram 3,
           .glfwTerminate] ∧
    (main (sampleEnv [1])).1.calls.countP Call.isDestroyWindow = 0 ∧
    (GLFWState.run 7 GLFWState.initial (main (sampleEnv [1])).1.calls).windows = [] :=
  have h : InitOk (sampleEnv [1]) := ⟨by decide, by decide, rfl⟩
  ⟨h, by decide, rfl,
    (C3_teardown (sampleEnv [1]) 0 1 [] h (by decide) rfl).1,
    (C3_teardown (sampleEnv [1]) 0 1 [] h (by decide) rfl).2.2.1,
    (C3_teardown (sampleEnv [1]) 0 1 [] h (by decide) rfl).2.2.2.2.2⟩

/-- C3, counterexample to the five-call teardown: on the run whose first reading of the close flag is
set, the calls made after the loop are not the five calls
`glDeleteVertexArrays`, `glDeleteBuffers`, `glDeleteProgram`,
`glfwDestroyWindow`, `glfwTerminate`. -/
theorem C3_teardown_counterexample :
    callsAfterLoop (main (sampleEnv [1])).1.calls
      ≠ [.glDeleteVertexArrays 1 1, .glDeleteBuffers 1 1, .glDeleteProgram 3,
         .glfwDestroyWindow 7, .glfwTerminate] := by
  rw [callsAfterLoop_main (sampleEnv [1]) 0 1 [] ⟨by decide, by decide, rfl⟩ (by decide) rfl]
  intro hEq
  have hlen := congrArg List.length hEq
  simp [teardownCalls] at hlen

/-- C4: a failed `glfwInit` is followed by `glfwTerminate` alone; a failed
window creation is followed by `glfwTerminate` alone; a failed `glewInit` is
followed by `glfwDestroyWindow` on the created window and then
`glfwTerminate`; and on none of these runs is any OpenGL call or buffer swap
made. -/
theorem C4_fatal_initialisation (env : Env) :
    (env.glfwInit = 0 →
      (main env).1.calls = [.glfwInit] ++ [.glfwTerminate]) ∧
    (env.glfwInit ≠ 0 → env.mainWindow = 0 →
      (main env).1.calls
        = [.glfwInit,
           .glfwWindowHint .GLFW_CONTEXT_VERSION_MAJOR (.int 3),
           .glfwWindowHint .GLFW_CONTEXT_VERSION_MINOR (.int 3),
           .glfwWindowHint .GLFW_OPENGL_PROFILE .GLFW_OPENGL_CORE_PROFILE,
           .glfwWindowHint .GLFW_OPENGL_FORWARD_COMPAT .GL_TRUE,
           .glfwCreateWindow 600 600 "Main Window"]
          ++ [.glfwTerminate]) ∧
    (env.glfwInit ≠ 0 → env.mainWindow ≠ 0 → env.glewInit ≠ GLEW_OK →
      (main env).1.calls
        = [.glfwInit,
           .glfwWindowHint .GLFW_CONTEXT_VERSION_MAJOR (.int 3),
           .glfwWindowHint .GLFW_CONTEXT_VERSION_MINOR (.int 3),
           .glfwWindowHint .GLFW_OPENGL_PROFILE .GLFW_OPENGL_CORE_PROFILE,
           .glfwWindowHint .GLFW_OPENGL_FORWARD_COMPAT .GL_TRUE,
           .glfwCreateWindow 600 600 "Main Window",
           .glfwGetFramebufferSize env.mainWindow,
           .glfwMakeContextCurrent env.mainWindow,
           .glewInit]
          ++ [.glfwDestroyWindow env.mainWindow, .glfwTerminate]) ∧
    (¬ InitOk env → (main env).1.calls.countP Call.isGraphicsCall = 0) := by
  refine ⟨?_, ?_, ?_, ?_⟩
  · intro h1
    rw [main_of_glfwInit_failed env h1]; rfl
  · intro h1 h2
    rw [main_of_window_failed env h1 h2]; rfl
  · intro h1 h2 h3
    rw [main_of_glewInit_failed env h1 h2 h3]; rfl
  · intro h
    by_cases h1 : env.glfwInit = 0
    · rw [main_of_glfwInit_failed env h1]
      simp [Call.isGraphicsCall, List.countP_cons]
    · by_cases h2 : env.mainWindow = 0
      · rw [main_of_window_failed env h1 h2]
        simp [Call.isGraphicsCall, List.countP_cons, windowCalls]
      · by_cases h3 : env.glewInit = GLEW_OK
        · exact absurd ⟨h1, h2, h3⟩ h
        · rw [main_of_glewInit_failed env h1 h2 h3]
          simp [Call.isGraphicsCall, List.countP_cons, windowCalls, contextCalls]

/-- C4, at one run for each of the three fatal failures. -/
theorem C4_fatal_initialisation_witness :
    (main envGlfwInitFails).1.calls = [.glfwInit] ++ [.glfwTerminate] ∧
    (main envWindowFails).1.calls
        = [.glfwInit,
           .glfwWindowHint .GLFW_CONTEXT_VERSION_MAJOR (.int 3),
           .glfwWindowHint .GLFW_CONTEXT_VERSION_MINOR (.int 3),
           .glfwWindowHint .GLFW_OPENGL_PROFILE .GLFW_OPENGL_CORE_PROFILE,
           .glfwWindowHint .GLFW_OPENGL_FORWARD_COMPAT .GL_TRUE,
           .glfwCreateWindow 600 600 "Main Window"]
          ++ [.glfwTerminate] ∧
    (main envGlewInitFails).1.calls
        = [.glfwInit,
           .glfwWindowHint .GLFW_CONTEXT_VERSION_MAJOR (.int 3),
           .glfwWindowHint .GLFW_CONTEXT_VERSION_MINOR (.int 3),
           .glfwWindowHint .GLFW_OPENGL_PROFILE .GLFW_OPENGL_CORE_PROFILE,
           .glfwWindowHint .GLFW_OPENGL_FORWARD_COMPAT .GL_TRUE,
           .glfwCreateWindow 600 600 "Main Window",
           .glfwGetFramebufferSize 7,
           .glfwMakeContextCurrent 7,
           .glewInit]
          ++ [.glfwDestroyWindow 7, .glfwTerminate] ∧
    (main envGlewInitFails).1.calls.countP Call.isGraphicsCall = 0 :=
  ⟨(C4_fatal_initialisation envGlfwInitFails).1 rfl,
   (C4_fatal_initialisation envWindowFails).2.1 (by decide) rfl,
   (C4_fatal_initialisation envGlewInitFails).2.2.1 (by decide) (by decide) (by decide),
   (C4_fatal_initialisation envGlewInitFails).2.2.2
     (fun h => absurd h.2.2 (by decide))⟩

/-- C5: when the first `n` readings of the close flag are unset and the next
one is set, the loop ends, having made exactly `n` passes: its calls are `n`
times a reading of the flag followed by the seven calls of one frame
(poll events, clear colour (1,0,0,1), clear the colour buffer, use the
program, bind the vertex array, draw triangles from vertex 0 with count 3,
swap buffers), then the reading that ends it.  With the readings left out
this is `n` repetitions of the frame; it holds `n` draw calls and `n` buffer
swaps, none at all when `n = 0`, and no call that creates, deletes or
defines a GPU object; the output streams are untouched. -/
theorem C5_render_loop (env : Env) (n : Nat) (flag : Int) (rest : List Int) (w : World)
    (hf : flag ≠ 0) :
    renderLoop env (List.replicate n 0 ++ flag :: rest) w
        = ({ w with calls := w.calls ++
              ((List.replicate n
                  (Call.glfwWindowShouldClose env.mainWindow ::
                    [.glfwPollEvents,
                     .glClearColor 1 0 0 1,
                     .glClear .GL_COLOR_BUFFER_BIT,
                     .glUseProgram env.shader_program,
                     .glBindVertexArray env.VAO,
                     .glDrawArrays .GL_TRIANGLES 0 3,
                     .glfwSwapBuffers env.mainWindow])).flatten
                ++ [.glfwWindowShouldClose env.mainWindow]) }, true) ∧
    (passesCalls env n).filter (fun c => !c.isWindowShouldClose)
        = (List.replicate n (frameCalls env)).flatten ∧
    (passesCalls env n).countP Call.isDraw = n ∧
    (passesCalls env n).countP Call.isSwapBuffers = n ∧
    (passesCalls env n).countP Call.changesObjects = 0 := by
  refine ⟨?_, filter_passesCalls env n, ?_, ?_, ?_⟩
  · rw [renderLoop_eq, loopCalls_replicate env n flag rest hf,
      closeRead_replicate n flag rest hf]
    rfl
  · rw [countP_passesCalls]
    simp [frameCalls, Call.isDraw, List.countP_cons]
  · rw [countP_passesCalls]
    simp [frameCalls, Call.isSwapBuffers, List.countP_cons]
  · rw [countP_passesCalls]
    simp [frameCalls, Call.changesObjects, List.countP_cons]

/-- C5, at a loop entered from the empty world whose third reading of the
close flag is set. -/
theorem C5_render_loop_witness :
    (1 : Int) ≠ 0 ∧
    (renderLoop (sampleEnv []) (List.replicate 2 0 ++ 1 :: []) {}).2 = true ∧
    (passesCalls (sampleEnv []) 2).countP Call.isDraw = 2 :=
  ⟨by decide,
   congrArg Prod.snd (C5_render_loop (sampleEnv []) 2 1 [] {} (by decide)).1,
   (C5_render_loop (sampleEnv []) 2 1 [] {} (by decide)).2.2.1⟩

/-- C6: on a run that reaches shader building, whatever the compile and link
statuses, the two `glDeleteShader` calls (vertex shader, then fragment
shader) come directly after `glLinkProgram`, the link-status query and the
retrieval of the program's log, and directly before the vertex-array and
buffer setup.  They are the only `glDeleteShader` calls of the run, no call
before them deletes a shader, no call after them takes a shader argument,
and no `glDeleteProgram` is made before teardown.  When the two shader names
differ, each is deleted exactly once and is passed to no call after its
deletion. -/
theorem C6_shader_release (env : Env) (h : InitOk env) :
    (main env).1.calls
      = (windowCalls ++ contextCalls env
          ++ [.glViewport 0 0 env.bufferHeight env.bufferWidth]
          ++ [.glCreateShader .GL_VERTEX_SHADER,
              .glShaderSource env.vertex_shader 1 vertex_shader_source,
              .glCompileShader env.vertex_shader,
              .glGetShaderiv env.vertex_shader .GL_COMPILE_STATUS,
              .glGetShaderInfoLog env.vertex_shader 512,
              .glCreateShader .GL_FRAGMENT_SHADER,
              .glShaderSource env.fragment_shader 1 fragment_shader_source,
              .glCompileShader env.fragment_shader,
              .glGetShaderiv env.fragment_shader .GL_COMPILE_STATUS,
              .glGetShaderInfoLog env.fragment_shader 512,
              .glCreateProgram,
              .glAttachShader env.shader_program env.vertex_shader,
              .glAttachShader env.shader_program env.fragment_shader])
        ++ [.glLinkProgram env.shader_program,
            .glGetProgramiv env.shader_program .GL_LINK_STATUS,
            .glGetProgramInfoLog env.shader_program 512,
            .glDeleteShader env.vertex_shader,
            .glDeleteShader env.fragment_shader]
        ++ (geometryCalls env ++ loopCalls env env.shouldClose
              ++ (if closeRead env.shouldClose then teardownCalls env else [])) ∧
    (main env).1.calls.countP Call.isDeleteShader = 2 ∧
    (geometryCalls env ++ loopCalls env env.shouldClose
        ++ (if closeRead env.shouldClose then teardownCalls env else [])).countP
      Call.takesShader = 0 ∧
    (setupCalls env ++ loopCalls env env.shouldClose).countP Call.isDeleteProgram = 0 ∧
    (main env).1.calls
      = (setupCalls env ++ loopCalls env env.shouldClose)
          ++ (if closeRead env.shouldClose then teardownCalls env else []) ∧
    (env.vertex_shader ≠ env.fragment_shader →
      (main env).1.calls.countP (Call.isDeleteShaderOf env.vertex_shader) = 1 ∧
      (main env).1.calls.countP (Call.isDeleteShaderOf env.fragment_shader) = 1 ∧
      usedAfterDelete env.vertex_shader (main env).1.calls = false ∧
      usedAfterDelete env.fragment_shader (main env).1.calls = false) := by
  have hloop : ∀ p : Call → Bool, p (.glfwWindowShouldClose env.mainWindow) = false →
      (∀ c ∈ frameCalls env, p c = false) →
      (loopCalls env env.shouldClose).countP p = 0 :=
    fun p h0 hfr => countP_loopCalls_eq_zero env p h0 hfr env.shouldClose
  have l1 := hloop Call.isDeleteShader rfl (by simp [frameCalls, Call.isDeleteShader])
  have l2 := hloop Call.takesShader rfl (by simp [frameCalls, Call.takesShader])
  have l3 := hloop Call.isDeleteProgram rfl (by simp [frameCalls, Call.isDeleteProgram])
  have l4 := hloop (Call.isDeleteShaderOf env.vertex_shader) rfl
    (by simp [frameCalls, Call.isDeleteShaderOf])
  have l5 := hloop (Call.isDeleteShaderOf env.fragment_shader) rfl
    (by simp [frameCalls, Call.isDeleteShaderOf])
  have a1 : ∀ s, (geometryCalls env ++ loopCalls env env.shouldClose
        ++ (if closeRead env.shouldClose then teardownCalls env else [])).any
      (Call.usesShader s) = false := by
    intro s
    have := any_loopCalls_eq_false env (Call.usesShader s) rfl
      (by simp [frameCalls, Call.usesShader]) env.shouldClose
    rw [List.any_append, List.any_append, this]
    split_ifs <;> simp [geometryCalls, teardownCalls, Call.usesShader]
  refine ⟨main_calls_split env h, ?_, ?_, ?_, ?_, ?_⟩
  · rw [main_of_initOk env h]
    simp only [List.countP_append, l1]
    split_ifs <;>
      simp [setupCalls, windowCalls, contextCalls, shaderCalls, shaderReleaseCalls,
        geometryCalls, teardownCalls, Call.isDeleteShader, List.countP_cons]
  · simp only [List.countP_append, l2]
    split_ifs <;> simp [geometryCalls, teardownCalls, Call.takesShader, List.countP_cons]
  · simp only [List.countP_append, l3]
    simp [setupCalls, windowCalls, contextCalls, shaderCalls, shaderReleaseCalls,
      geometryCalls, Call.isDeleteProgram, List.countP_cons]
  · rw [main_of_initOk env h]
  · intro hd
    have hd' : env.fragment_shader ≠ env.vertex_shader := fun e => hd e.symm
    refine ⟨?_, ?_, ?_, ?_⟩
    · rw [main_of_initOk env h]
      simp only [List.countP_append, l4]
      split_ifs <;>
        simp [setupCalls, windowCalls, contextCalls, shaderCalls, shaderReleaseCalls,
          geometryCalls, teardownCalls, Call.isDeleteShaderOf, List.countP_cons, hd, hd']
    · rw [main_of_initOk env h]
      simp only [List.countP_append, l5]
      split_ifs <;>
        simp [setupCalls, windowCalls, contextCalls, shaderCalls, shaderReleaseCalls,
          geometryCalls, teardownCalls, Call.isDeleteShaderOf, List.countP_cons, hd, hd']
    · rw [main_calls_split env h, usedAfterDelete_append _ _ _ (a1 _)]
      simp [windowCalls, contextCalls, usedAfterDelete, Call.isDeleteShaderOf,
        Call.usesShader, hd, hd']
    · rw [main_calls_split env h, usedAfterDelete_append _ _ _ (a1 _)]
      simp [windowCalls, contextCalls, usedAfterDelete, Call.isDeleteShaderOf,
        Call.usesShader, hd, hd']

/-- C6, at a run with shader names 1 and 2 whose loop is left at the first
reading: each name is deleted once and not used afterwards. -/
theorem C6_shader_release_witness :
    InitOk (sampleEnv [1]) ∧
    (sampleEnv [1]).vertex_shader ≠ (sampleEnv [1]).fragment_shader ∧
    (main (sampleEnv [1])).1.calls.countP Call.isDeleteShader = 2 ∧
    (main (sampleEnv [1])).1.calls.countP (Call.isDeleteShaderOf 1) = 1 ∧
    (main (sampleEnv [1])).1.calls.countP (Call.isDeleteShaderOf 2) = 1 ∧
    usedAfterDelete 1 (main (sampleEnv [1])).1.calls = false ∧
    usedAfterDelete 2 (main (sampleEnv [1])).1.calls = false :=
  have h : InitOk (sampleEnv [1]) := ⟨by decide, by decide, rfl⟩
  have hd : (sampleEnv [1]).vertex_shader ≠ (sampleEnv [1]).fragment_shader := by decide
  ⟨h, hd, (C6_shader_release (sampleEnv [1]) h).2.1,
    (C6_shader_release (sampleEnv [1]) h).2.2.2.2.2 hd⟩

/-- C7: when `glfwInit` fails, the failure message "GLFW Initialization
Failed!" is written to `std::cout` and nothing is written to `std::cerr`.
The other two fatal messages go to `std::cerr` alone, and on a run that
reaches shader building each compile or link message goes to `std::cerr` on
failure and to `std::cout` on success, followed by the info log retrieved
with buffer size 512. -/
theorem C7_diagnostic_streams (env : Env) :
    (env.glfwInit = 0 →
      (main env).1.cout = ["GLFW Initialization Failed!" ++ "\n"] ∧
      (main env).1.cerr = []) ∧
    (env.glfwInit ≠ 0 → env.mainWindow = 0 →
      (main env).1.cout = [] ∧
      (main env).1.cerr = ["Window Creation Failed!" ++ "\n"]) ∧
    (env.glfwInit ≠ 0 → env.mainWindow ≠ 0 → env.glewInit ≠ GLEW_OK →
      (main env).1.cout = [] ∧
      (main env).1.cerr = ["GLEW Initialization Failed!" ++ "\n"]) ∧
    (InitOk env →
      (main env).1.cout
        = (if env.vertexCompileStatus = 0 then []
            else ["Vertex shader compilation succeeded"
                    ++ infoLogText 512 env.vertexInfoLog ++ "\n"])
          ++ (if env.fragmentCompileStatus = 0 then []
            else ["Fragment shader compilation succeeded : "
                    ++ infoLogText 512 env.fragmentInfoLog ++ "\n"])
          ++ (if env.linkStatus = 0 then []
            else ["Shader program linking succeeded : "
                    ++ infoLogText 512 env.programInfoLog ++ "\n"]) ∧
      (main env).1.cerr
        = (if env.vertexCompileStatus = 0 then
              ["Vertex shader compilation failed : "
                ++ infoLogText 512 env.vertexInfoLog ++ "\n"]
            else [])
          ++ (if env.fragmentCompileStatus = 0 then
              ["Fragment shader compilation failed : "
                ++ infoLogText 512 env.fragmentInfoLog ++ "\n"]
            else [])
          ++ (if env.linkStatus = 0 then
              ["Shader program linking failed : "
                ++ infoLogText 512 env.programInfoLog ++ "\n"]
            else [])) := by
  refine ⟨?_, ?_, ?_, ?_⟩
  · intro h1
    rw [main_of_glfwInit_failed env h1]; exact ⟨rfl, rfl⟩
  · intro h1 h2
    rw [main_of_window_failed env h1 h2]; exact ⟨rfl, rfl⟩
  · intro h1 h2 h3
    rw [main_of_glewInit_failed env h1 h2 h3]; exact ⟨rfl, rfl⟩
  · intro h
    rw [main_of_initOk env h]; exact ⟨rfl, rfl⟩

/-- C7, at a run in which `glfwInit` fails: the failure message is on
`std::cout` and `std::cerr` is empty. -/
theorem C7_diagnostic_streams_witness :
    envGlfwInitFails.glfwInit = 0 ∧
    (main envGlfwInitFails).1.cout = ["GLFW Initialization Failed!" ++ "\n"] ∧
    (main envGlfwInitFails).1.cerr = [] :=
  ⟨rfl, (C7_diagnostic_streams envGlfwInitFails).1 rfl⟩

/-- C8: on a run whose initialisations succeed, the run holds exactly one
`glBufferData` call; it targets `GL_ARRAY_BUFFER`, passes byte size 36, the
nine values -1/2, -1/2, 0, 1/2, -1/2, 0, 0, 1/2, 0 and `GL_STATIC_DRAW`; in
the binding state reached by the calls before it the array buffer bound is
the program's vertex buffer; and 36 is nine times the 4-byte float size. -/
theorem C8_vertex_upload (env : Env) (h : InitOk env) :
    (main env).1.calls.filter Call.isBufferData
      = [.glBufferData .GL_ARRAY_BUFFER 36 [-1/2, -1/2, 0, 1/2, -1/2, 0, 0, 1/2, 0]
          .GL_STATIC_DRAW] ∧
    (main env).1.calls.countP Call.isBufferData = 1 ∧
    (GLState.initial.run
        ((main env).1.calls.takeWhile (fun c => !c.isBufferData))).arrayBufferBinding
      = env.VBO ∧
    vertices.length = 9 ∧ sizeof_GLfloat = 4 ∧ sizeof_vertices = 9 * sizeof_GLfloat := by
  have hl := filter_loopCalls_eq_nil env Call.isBufferData rfl
    (by simp [frameCalls, Call.isBufferData]) env.shouldClose
  have hf : (main env).1.calls.filter Call.isBufferData
      = [.glBufferData .GL_ARRAY_BUFFER 36 [-1/2, -1/2, 0, 1/2, -1/2, 0, 0, 1/2, 0]
          .GL_STATIC_DRAW] := by
    rw [main_of_initOk env h, ← vertices_eq, ← sizeof_vertices_eq]
    simp only [List.filter_append, hl]
    split_ifs <;>
      simp [setupCalls, windowCalls, contextCalls, shaderCalls, shaderReleaseCalls,
        geometryCalls, teardownCalls, Call.isBufferData, List.filter_cons]
  refine ⟨hf, ?_, ?_, ?_, rfl, ?_⟩
  · rw [List.countP_eq_length_filter, hf]; rfl
  · rw [main_of_initOk env h]
    simp [setupCalls, windowCalls, contextCalls, shaderCalls, shaderReleaseCalls,
      geometryCalls, Call.isBufferData, List.takeWhile_cons, GLState.run, GLState.step,
      GLState.initial]
  · simp [vertices]
  · simp [sizeof_vertices, vertices, sizeof_GLfloat]

/-- C8, at a run whose vertex buffer has name 1: the single upload is made
while buffer 1 is bound to the array-buffer target. -/
theorem C8_vertex_upload_witness :
    InitOk (sampleEnv [1]) ∧
    (main (sampleEnv [1])).1.calls.countP Call.isBufferData = 1 ∧
    (GLState.initial.run
        ((main (sampleEnv [1])).1.calls.takeWhile
          (fun c => !c.isBufferData))).arrayBufferBinding = 1 :=
  have h : InitOk (sampleEnv [1]) := ⟨by decide, by decide, rfl⟩
  ⟨h, (C8_vertex_upload (sampleEnv [1]) h).2.1, (C8_vertex_upload (sampleEnv [1]) h).2.2.1⟩

/-- C9: on a run whose initialisations succeed and whose vertex array has a
non-zero name, in the binding state reached by the calls before the first
reading of the close flag (these are exactly the setup calls), no vertex
array and no array buffer is bound; the program's vertex array has attribute
0 enabled and no other; attribute 0 is recorded with 3 components of type
`GL_FLOAT`, not normalised, stride 12 = 3 * sizeof(GLfloat), offset 0, sourced
from the program's vertex buffer; and a `glBindBuffer` call never changes a
recorded attribute. -/
theorem C9_vertex_array_descriptor (env : Env) (h : InitOk env) (hv : env.VAO ≠ 0) :
    (main env).1.calls.takeWhile (fun c => !c.isWindowShouldClose) = setupCalls env ∧
    (GLState.initial.run (setupCalls env)).vertexArrayBinding = 0 ∧
    (GLState.initial.run (setupCalls env)).arrayBufferBinding = 0 ∧
    (∀ i, (GLState.initial.run (setupCalls env)).attribEnabled env.VAO i = true ↔ i = 0) ∧
    (GLState.initial.run (setupCalls env)).attribPointer env.VAO 0
      = some { size := 3, type := .GL_FLOAT, normalized := false, stride := 12,
               offset := 0, buffer := env.VBO } ∧
    3 * sizeof_GLfloat = 12 ∧
    (∀ (s : GLState) (target : GLenum) (buffer : Nat),
      (s.step (.glBindBuffer target buffer)).attribPointer = s.attribPointer) := by
  refine ⟨callsBeforeLoop_eq env h, ?_, ?_, ?_, ?_, rfl, ?_⟩
  · simp [setupCalls, windowCalls, contextCalls, shaderCalls, shaderReleaseCalls,
      geometryCalls, GLState.run, GLState.step, GLState.initial]
  · simp [setupCalls, windowCalls, contextCalls, shaderCalls, shaderReleaseCalls,
      geometryCalls, GLState.run, GLState.step, GLState.initial]
  · intro i
    simp [setupCalls, windowCalls, contextCalls, shaderCalls, shaderReleaseCalls,
      geometryCalls, GLState.run, GLState.step, GLState.initial, hv]
  · simp [setupCalls, windowCalls, contextCalls, shaderCalls, shaderReleaseCalls,
      geometryCalls, GLState.run, GLState.step, GLState.initial, hv, sizeof_GLfloat]
  · intro s target buffer
    cases target <;> rfl

/-- C9, at a run whose vertex array and vertex buffer both have name 1. -/
theorem C9_vertex_array_descriptor_witness :
    InitOk (sampleEnv []) ∧ (sampleEnv []).VAO ≠ 0 ∧
    (GLState.initial.run (setupCalls (sampleEnv []))).vertexArrayBinding = 0 ∧
    (GLState.initial.run (setupCalls (sampleEnv []))).arrayBufferBinding = 0 ∧
    (∀ i, (GLState.initial.run (setupCalls (sampleEnv []))).attribEnabled 1 i = true
      ↔ i = 0) ∧
    (GLState.initial.run (setupCalls (sampleEnv []))).attribPointer 1 0
      = some { size := 3, type := .GL_FLOAT, normalized := false, stride := 12,
               offset := 0, buffer := 1 } :=
  have h : InitOk (sampleEnv []) := ⟨by decide, by decide, rfl⟩
  have hv : (sampleEnv []).VAO ≠ 0 := by decide
  ⟨h, hv, (C9_vertex_array_descriptor (sampleEnv []) h hv).2.1,
    (C9_vertex_array_descriptor (sampleEnv []) h hv).2.2.1,
    (C9_vertex_array_descriptor (sampleEnv []) h hv).2.2.2.1,
    (C9_vertex_array_descriptor (sampleEnv []) h hv).2.2.2.2.1⟩

/-- C10: on a run whose initialisations succeed, the only `glViewport` call
is `glViewport(0, 0, bufferHeight, bufferWidth)`: the viewport width is the
framebuffer height and the viewport height is the framebuffer width. -/
theorem C10_viewport_swapped (env : Env) (h : InitOk env) :
    (main env).1.calls.filter Call.isViewport
      = [.glViewport 0 0 env.bufferHeight env.bufferWidth] := by
  rw [main_of_initOk env h]
  have hl := filter_loopCalls_eq_nil env Call.isViewport rfl
    (by simp [frameCalls, Call.isViewport]) env.shouldClose
  simp only [List.filter_append, hl]
  split_ifs <;>
    simp [setupCalls, windowCalls, contextCalls, shaderCalls, shaderReleaseCalls,
      geometryCalls, teardownCalls, Call.isViewport, List.filter_cons]

/-- C10, at a run whose framebuffer is 800 wide and 600 high: the viewport is
set 600 wide and 800 high. -/
theorem C10_viewport_swapped_witness :
    InitOk (sampleEnv [1]) ∧
    (sampleEnv [1]).bufferWidth = 800 ∧ (sampleEnv [1]).bufferHeight = 600 ∧
    (main (sampleEnv [1])).1.calls.filter Call.isViewport = [.glViewport 0 0 600 800] :=
  have h : InitOk (sampleEnv [1]) := ⟨by decide, by decide, rfl⟩
  ⟨h, rfl, rfl, C10_viewport_swapped (sampleEnv [1]) h⟩

end OpenGL
